import Mathlib

/-!
Verification development for the scheduling engine (`scheduler.py`).

Shallow embedding conventions:

* Naive datetimes are modelled as `Int` seconds since 1970-01-01 00:00:00,
  so `now.date()` is floor division by 86400 and Python's
  `datetime(...).weekday()` (Mon = 0) of day number `d` is `(d + 3) % 7`
  (1970-01-01 was a Thursday).
* Timezones are modelled as fixed UTC offsets in seconds.  The ZoneInfo
  database is an abstract map `zdb : String → Option Int`; `none` models both
  an unknown zone name and an unavailable `zoneinfo` module
  (`_get_zoneinfo` returning `None`).  The relevant zones of the program
  (for instance `Asia/Taipei`, `+08:00`) are fixed-offset zones.
* `datetime.now(tz)` / `datetime.now()` are modelled by two explicit
  parameters: `nowUTC` (the current absolute instant, seconds) and
  `ambientOff` (the offset of the process-local ambient zone), so that
  `datetime.now(job_tz)` has wall clock `nowUTC + off job_tz` and the naive
  `datetime.now()` has wall clock `nowUTC + ambientOff`.
* Code that can raise is modelled in `Except Unit`; `.error ()` is an
  uncaught Python exception, `.ok none` is an actual `None` return.
* SQL `NOW()` (MySQL session time) is the explicit parameter `sqlNow`; the
  Python-side `datetime.now()` used for retry timestamps is `pyNow`.
-/

def splitCharsAux (sep : Char) : List Char → List Char → List (List Char)
  | [], acc => [acc.reverse]
  | c :: rest, acc =>
    if c = sep then acc.reverse :: splitCharsAux sep rest []
    else splitCharsAux sep rest (c :: acc)

/-- Python `s.split(sep)` for a one-character separator (keeps empty
pieces, like `str.split` with an explicit separator). -/
def sSplitOn (sep : Char) (s : String) : List String :=
  (splitCharsAux sep s.data []).map String.mk

def isSpaceChar (c : Char) : Bool :=
  c = ' ' || c = '\t' || c = '\n' || c = '\r'

def dropLeading : List Char → List Char
  | [] => []
  | c :: r => if isSpaceChar c then dropLeading r else c :: r

/-- Python `s.strip()` (over the ASCII whitespace the rows can contain). -/
def sTrim (s : String) : String :=
  String.mk (dropLeading (dropLeading s.data.reverse).reverse)

/-- Python `s.upper()` (ASCII). -/
def sToUpper (s : String) : String :=
  String.mk (s.data.map Char.toUpper)

instance {ε α : Type} [DecidableEq ε] [DecidableEq α] : DecidableEq (Except ε α) := fun x y =>
  match x, y with
  | .ok a, .ok b =>
    if h : a = b then .isTrue (by rw [h]) else .isFalse (by intro hc; cases hc; exact h rfl)
  | .error a, .error b =>
    if h : a = b then .isTrue (by rw [h]) else .isFalse (by intro hc; cases hc; exact h rfl)
  | .ok _, .error _ => .isFalse (by intro hc; cases hc)
  | .error _, .ok _ => .isFalse (by intro hc; cases hc)

/-- A `datetime.time` value as produced by `_parse_time_of_day`:
hour, minute, second (validated to the `datetime.time` ranges on parse). -/
structure TimeOfDay where
  hour : Int
  minute : Int
  second : Int
deriving DecidableEq, Repr

def secOfDay (t : TimeOfDay) : Int :=
  t.hour * 3600 + t.minute * 60 + t.second

/-- Nonempty all-digit character list to a natural number (helper for the
model of Python `int(...)`). -/
def digitsVal : List Char → Option Nat
  | [] => none
  | [c] => if c.isDigit then some (c.toNat - 48) else none
  | c :: rest =>
    if c.isDigit then
      match digitsVal rest with
      | some n => some ((c.toNat - 48) * 10 ^ rest.length + n)
      | none => none
    else none

/-- Python `int(s)` on a string: optional surrounding whitespace, optional
sign, at least one digit; anything else raises (`none`). -/
def parseIntStr (s : String) : Option Int :=
  let t := sTrim s
  match t.data with
  | [] => none
  | '+' :: rest => (digitsVal rest).map Int.ofNat
  | '-' :: rest => (digitsVal rest).map fun n => -(Int.ofNat n)
  | l => (digitsVal l).map Int.ofNat

/-- `_parse_time_of_day` (scheduler.py:196-202).  Strips the input, maps the
empty string to midnight, appends `":00"` to 5-character inputs, splits on
`":"` and requires exactly three integer fields in `datetime.time` range.
Any violation raises (ValueError from the unpacking, `int`, or the `time`
constructor), modelled as `.error ()`. -/
def _parse_time_of_day (x : String) : Except Unit TimeOfDay :=
  let s := sTrim x
  if s = "" then .ok ⟨0, 0, 0⟩
  else
    let s2 := if s.length = 5 then s ++ ":00" else s
    match sSplitOn ':' s2 with
    | [hh, mm, ss] =>
      match parseIntStr hh, parseIntStr mm, parseIntStr ss with
      | some h, some m, some sec =>
        if 0 ≤ h ∧ h ≤ 23 ∧ 0 ≤ m ∧ m ≤ 59 ∧ 0 ≤ sec ∧ sec ≤ 59 then
          .ok ⟨h, m, sec⟩
        else .error ()
      | _, _, _ => .error ()
    | _ => .error ()

/-- Deduplicate by `(hour, minute, second)`.  The Python dict comprehension
`{(t.hour,t.minute,t.second):t for t in out}` keeps one value per key;
since equal keys carry equal values and the list is sorted immediately
afterwards, which occurrence survives is immaterial. -/
def dedupTimes : List TimeOfDay → List TimeOfDay
  | [] => []
  | t :: ts =>
    if ts.any fun u => secOfDay u = secOfDay t then dedupTimes ts
    else t :: dedupTimes ts

def insertTime (t : TimeOfDay) : List TimeOfDay → List TimeOfDay
  | [] => [t]
  | u :: us => if secOfDay t ≤ secOfDay u then t :: u :: us else u :: insertTime t us

/-- `times.sort(key=lambda t:(t.hour,t.minute,t.second))`. -/
def sortTimes : List TimeOfDay → List TimeOfDay
  | [] => []
  | t :: ts => insertTime t (sortTimes ts)

/-- One row of `schedule_jobs` as seen by the modelled paths.  Sender-facing
columns (`http_url`, `http_method`, `mqtt_topic`, `qos`, ...) are carried as
opaque optional strings where the claims need a frame, and elided where they
are never read by the scheduling logic. -/
structure JobRow where
  id : Int
  name : Option String
  enabled : Bool
  schedule_type : Option String
  /-- `run_at`: `none` = NULL/falsy, `some none` = present but not
  ISO-parseable (the `except` branch), `some (some v)` = parses to `v`. -/
  run_at : Option (Option Int)
  times_of_day : Option String
  time_of_day : Option String
  days_of_week : Option String
  timezone : Option String
  channel : Option String
  payload : Option String
  max_retries : Option Int
  retry_backoff_sec : Option Int
  next_run_at : Option Int
  last_run_at : Option Int
deriving DecidableEq, Repr

/-- `_parse_times` (scheduler.py:204-218): csv `times_of_day` first, falling
back to the single `time_of_day`, then dedup and sort.  A parse failure in
any component propagates (raises). -/
def _parse_times (job : JobRow) : Except Unit (List TimeOfDay) := do
  let fromCsv : List String :=
    match job.times_of_day with
    | some csv =>
      if sTrim csv ≠ "" then ((sSplitOn ',' csv).map sTrim).filter (fun p => p ≠ "") else []
    | none => []
  let out ← fromCsv.mapM _parse_time_of_day
  let out ←
    if out.isEmpty then
      match job.time_of_day with
      | some tod =>
        if sTrim tod ≠ "" then do
          let t ← _parse_time_of_day tod
          pure [t]
        else pure []
      | none => pure []
    else pure out
  pure (sortTimes (dedupTimes out))

/-- The `norm` table of `_parse_days`: upper-cased short or full English
weekday names normalise to the three-letter `DOW_MAP` keys; anything else is
left unchanged (and is then dropped by the `DOW_MAP` filter). -/
def normToken (t : String) : String :=
  match sToUpper t with
  | "MON" => "Mon"
  | "MONDAY" => "Mon"
  | "TUE" => "Tue"
  | "TUESDAY" => "Tue"
  | "WED" => "Wed"
  | "WEDNESDAY" => "Wed"
  | "THU" => "Thu"
  | "THURSDAY" => "Thu"
  | "FRI" => "Fri"
  | "FRIDAY" => "Fri"
  | "SAT" => "Sat"
  | "SATURDAY" => "Sat"
  | "SUN" => "Sun"
  | "SUNDAY" => "Sun"
  | _ => t

/-- `DOW_MAP` (scheduler.py:189). -/
def dowOf (t : String) : Option Int :=
  match t with
  | "Mon" => some 0
  | "Tue" => some 1
  | "Wed" => some 2
  | "Thu" => some 3
  | "Fri" => some 4
  | "Sat" => some 5
  | "Sun" => some 6
  | _ => none

def insertDow (n : Int) : List Int → List Int
  | [] => [n]
  | m :: ms => if n < m then n :: m :: ms else if n = m then m :: ms else m :: insertDow n ms

/-- `sorted({...})` over weekday integers. -/
def sortedDedupDows : List Int → List Int
  | [] => []
  | n :: ns => insertDow n (sortedDedupDows ns)

/-- `_parse_days` (scheduler.py:220-247) on the CSV string form of
`days_of_week` (the structured set/list form produces the same stripped
token list and is not separately modelled).  `none` and `""` are falsy and
give `[]`; unknown tokens are silently dropped. -/
def _parse_days (raw : Option String) : List Int :=
  match raw with
  | none => []
  | some s =>
    if s = "" then []
    else
      let tokens := ((sSplitOn ',' s).map sTrim).filter fun t => t ≠ ""
      sortedDedupDows ((tokens.map normToken).filterMap dowOf)

/-- `str(job.get("schedule_type") or "").strip().upper()`. -/
def stypeOf (job : JobRow) : String :=
  sToUpper (sTrim (job.schedule_type.getD ""))

/-- `job_tz_name = (str(job.get("timezone") or default_tz)).strip() or default_tz`
(scheduler.py:252). -/
def jobTzName (job : JobRow) (default_tz : String) : String :=
  let raw := match job.timezone with
    | none => default_tz
    | some tz => if tz = "" then default_tz else tz
  if sTrim raw = "" then default_tz else sTrim raw

/-- The wall clock that `compute_next_run_at` takes as `now`
(scheduler.py:256): `datetime.now(job_tz)` when the job's zone resolves,
else the naive ambient-zone `datetime.now()`. -/
def nowWallOf (zdb : String → Option Int) (nowUTC ambientOff : Int)
    (job : JobRow) (default_tz : String) : Int :=
  match zdb (jobTzName job default_tz) with
  | some o => nowUTC + o
  | none => nowUTC + ambientOff

/-- The conversion applied to a found candidate before returning:
`cand.astimezone(sess_tz).replace(tzinfo=None)` when both zones resolve,
`cand.replace(tzinfo=None)` (same wall clock) when only the job zone does,
and the naive candidate unchanged otherwise. -/
def convertRet (jobOff sessOff : Option Int) (c : Int) : Int :=
  match jobOff, sessOff with
  | some jo, some so => c - jo + so
  | _, _ => c

/-- Maps a returned instant back to the job zone's wall clock (inverse of
`convertRet` in the doubly-resolved case, identity otherwise). -/
def retToJobWall (jobOff sessOff : Option Int) (t : Int) : Int :=
  match jobOff, sessOff with
  | some jo, some so => t - so + jo
  | _, _ => t

/-- Python `datetime(y,m,d).weekday()` for day number `d` (Mon = 0). -/
def pyWeekday (day : Int) : Int :=
  (day + 3).emod 7

/-- Inner loop of the DAILY branch over one day: first candidate strictly
greater than `now` (`times` is iterated in sorted order). -/
def firstCandGT (times : List TimeOfDay) (daySec nowW : Int) : Option Int :=
  match times with
  | [] => none
  | t :: ts =>
    let c := daySec + secOfDay t
    if nowW < c then some c else firstCandGT ts daySec nowW

/-- DAILY branch day walk (`for day_offset in range(0,14)`). -/
def dailyScan (times : List TimeOfDay) (nowW baseDay : Int) : List Nat → Option Int
  | [] => none
  | off :: offs =>
    match firstCandGT times ((baseDay + (off : Int)) * 86400) nowW with
    | some c => some c
    | none => dailyScan times nowW baseDay offs

/-- Inner loop of the WEEKLY branch over one matching day:
`best = cand if best is None or cand < best else best` over candidates
strictly greater than `now`. -/
def minCandGT (times : List TimeOfDay) (daySec nowW : Int) : Option Int :=
  match times with
  | [] => none
  | t :: ts =>
    let c := daySec + secOfDay t
    let rest := minCandGT ts daySec nowW
    if nowW < c then
      match rest with
      | none => some c
      | some b => some (min c b)
    else rest

/-- WEEKLY branch day walk (`for i in range(0,366)`): skip days whose
weekday is not in `dows`; stop at the first matching day that yields a
candidate. -/
def weeklyScan (times : List TimeOfDay) (dows : List Int) (nowW baseDay : Int) :
    List Nat → Option Int
  | [] => none
  | i :: is =>
    if pyWeekday (baseDay + (i : Int)) ∈ dows then
      match minCandGT times ((baseDay + (i : Int)) * 86400) nowW with
      | some b => some b
      | none => weeklyScan times dows nowW baseDay is
    else weeklyScan times dows nowW baseDay is

/-- Branch dispatch of `compute_next_run_at` after the times list has been
parsed (scheduler.py:259-301).  Note `if not times: return None` sits
between the ONCE branch and the DAILY/WEEKLY branches, and an unknown
`schedule_type` falls through to the final `return None`. -/
def resolveCore (jobOff sessOff : Option Int) (nowW : Int) (stype : String)
    (run_at : Option (Option Int)) (times : List TimeOfDay) (dows : List Int) :
    Option Int :=
  if stype = "ONCE" then
    match run_at with
    | some (some run) =>
      match jobOff with
      | some _ => if run ≤ nowW then none else some (convertRet jobOff sessOff run)
      | none => if nowW < run then some run else none
    | _ => none
  else if times.isEmpty then none
  else if stype = "DAILY" then
    (dailyScan times nowW (Int.fdiv nowW 86400) (List.range 14)).map (convertRet jobOff sessOff)
  else if stype = "WEEKLY" then
    if dows.isEmpty then none
    else (weeklyScan times dows nowW (Int.fdiv nowW 86400) (List.range 366)).map
      (convertRet jobOff sessOff)
  else none

/-- `compute_next_run_at` (scheduler.py:250-301).  `zdb` is the zone
database, `nowUTC`/`ambientOff` model the ambient clock and ambient local
zone (see the header).  `.error ()` models an uncaught exception escaping
the function (raised by `_parse_times` on unparseable time strings, which
runs before any branch). -/
def compute_next_run_at (zdb : String → Option Int) (nowUTC ambientOff : Int)
    (job : JobRow) (default_tz : String) : Except Unit (Option Int) :=
  match _parse_times job with
  | .error e => .error e
  | .ok times =>
    .ok (resolveCore (zdb (jobTzName job default_tz)) (zdb default_tz)
      (nowWallOf zdb nowUTC ambientOff job default_tz) (stypeOf job)
      job.run_at times (_parse_days job.days_of_week))

/-- `update_job_after_success` (scheduler.py:303-327) as a row transform.
The `disable` and pause branches run
`UPDATE ... SET enabled=0, last_run_at=NOW()` — they touch nothing else
(in particular `next_run_at` is left as it was, never a zero sentinel).  -/
def update_job_after_success (row : JobRow) (sqlNow : Int)
    (next_run_at : Option Int) (disable : Bool) : JobRow :=
  if disable then
    { row with enabled := false, last_run_at := some sqlNow }
  else
    match next_run_at with
    | none => { row with enabled := false, last_run_at := some sqlNow }
    | some t => { row with last_run_at := some sqlNow, next_run_at := some t, enabled := true }

/-- `int(job.get("max_retries") or 0)` — NULL and 0 both give 0. -/
def effMaxRetries (row : JobRow) : Int :=
  match row.max_retries with
  | none => 0
  | some v => v

/-- `int(job.get("retry_backoff_sec") or 60)` — NULL **and 0** both give 60. -/
def effBackoff (row : JobRow) : Int :=
  match row.retry_backoff_sec with
  | none => 60
  | some v => if v = 0 then 60 else v

/-- `update_job_after_failure` (scheduler.py:329-337): with
`max_retries > 0` it sets `next_run_at = datetime.now() + backoff` and
`last_run_at = NOW()` and returns the retry instant; it keeps no retry
count and never touches `enabled`.  Otherwise it changes nothing and
returns `None`. -/
def update_job_after_failure (row : JobRow) (pyNow sqlNow : Int) :
    Option (Int × JobRow) :=
  if 0 < effMaxRetries row then
    some (pyNow + effBackoff row,
      { row with next_run_at := some (pyNow + effBackoff row), last_run_at := some sqlNow })
  else none

/-- Success branch of `_execute_one` (scheduler.py:465-478) as a row
transform: re-read row (taken as the given `row`), `disable` iff the type is
ONCE, recompute `next_run` and apply `update_job_after_success`.  An
exception raised by `compute_next_run_at` escapes to the poll loop's
top-level handler and the row is left unchanged in the store. -/
def afterSuccessDispatch (zdb : String → Option Int) (nowUTC ambientOff sqlNow : Int)
    (row : JobRow) (default_tz : String) : JobRow :=
  let disable := stypeOf row == "ONCE"
  match compute_next_run_at zdb nowUTC ambientOff row default_tz with
  | .error _ => row
  | .ok next_run => update_job_after_success row sqlNow next_run disable

/-- Failure branch of `_execute_one` (scheduler.py:481-499): retry when
`max_retries > 0`, otherwise recompute the recurrence and apply
`update_job_after_success` with `disable=False` (an exception from the
resolver again leaves the row unchanged). -/
def afterFailureDispatch (zdb : String → Option Int)
    (nowUTC ambientOff pyNow sqlNow : Int) (row : JobRow) (default_tz : String) : JobRow :=
  match update_job_after_failure row pyNow sqlNow with
  | some (_, updated) => updated
  | none =>
    match compute_next_run_at zdb nowUTC ambientOff row default_tz with
    | .error _ => row
    | .ok next_run => update_job_after_success row sqlNow next_run false

/-- The row after `n` consecutive failed dispatches. -/
def failNTimes (zdb : String → Option Int) (nowUTC ambientOff pyNow sqlNow : Int)
    (row : JobRow) (default_tz : String) : Nat → JobRow
  | 0 => row
  | n + 1 =>
    afterFailureDispatch zdb nowUTC ambientOff pyNow sqlNow
      (failNTimes zdb nowUTC ambientOff pyNow sqlNow row default_tz n) default_tz

/-- Outcome of `_ControlHandler.do_GET` (scheduler.py:123-149):
`notFound` = 404, `healthOk` = 200, `forbidden` = 403,
`missingJobId`/`badJobId` = 400, `queued jid` = 200 with the id enqueued. -/
inductive CtrlResp where
  | notFound
  | healthOk
  | forbidden
  | missingJobId
  | badJobId
  | queued (jid : Int)
deriving DecidableEq, Repr

/-- `parse_qs(u.query).get(k, [None])[0]`: first value for key `k`;
`parse_qs` drops blank values (`keep_blank_values` is off), so an empty
`k=` contributes nothing. -/
def qsGet (q : List (String × String)) (k : String) : Option String :=
  ((q.filter fun p => p.1 == k && p.2 != "").head?).map fun p => p.2

/-- `token = qs.get("token",[None])[0] or self.headers.get("X-Token")`:
the header is consulted only when the query parameter is absent (or blank,
which `parse_qs` already dropped). -/
def effectiveToken (q : List (String × String)) (xToken : Option String) : Option String :=
  match qsGet q "token" with
  | some t => some t
  | none => xToken

/-- The `job_id` validation and enqueue that follow a passed auth check
(scheduler.py:138-147). -/
def handleJobId (query : List (String × String)) : CtrlResp :=
  match qsGet query "job_id" with
  | none => .missingJobId
  | some s =>
    match parseIntStr s with
    | some n => .queued n
    | none => .badJobId

/-- `_ControlHandler.do_GET` (scheduler.py:123-149) as a pure function of
the configured token, the request path, the parsed query pairs and the
`X-Token` header.  The auth check precedes the `job_id` checks. -/
def do_GET (control_token : String) (path : String)
    (query : List (String × String)) (xToken : Option String) : CtrlResp :=
  if path ≠ "/run_immediate" ∧ path ≠ "/health" then .notFound
  else if path = "/health" then .healthOk
  else if control_token ≠ "" ∧ effectiveToken query xToken ≠ some control_token then
    .forbidden
  else handleJobId query

/-- Observable dispatch events of one poll cycle (`run_loop`,
scheduler.py:530-601). -/
inductive Event where
  | execImm (id : Int)
  | skipInflight (id : Int)
  | notFoundImm (id : Int)
  | execSched (id : Int)
deriving DecidableEq, Repr

/-- The immediate phase of one poll cycle (scheduler.py:539-558): for each
drained id in order, a missing row logs and continues; an id already in the
in-flight set is skipped with the "already inflight" log; otherwise the id
is added, executed, and removed again in the `finally` before the next id
is examined. -/
def immPhase (db : Int → Bool) : List Int → List Int → List Event
  | _, [] => []
  | inflight, jid :: rest =>
    if db jid then
      if jid ∈ inflight then Event.skipInflight jid :: immPhase db inflight rest
      else Event.execImm jid :: immPhase db ((jid :: inflight).erase jid) rest
    else Event.notFoundImm jid :: immPhase db inflight rest

/-- One poll cycle's dispatch trace: `jobs` is fetched first
(scheduler.py:535), the immediate queue is drained and executed, then every
fetched due job is executed unconditionally (the scheduled path never
consults the in-flight set). -/
def cycleEvents (db : Int → Bool) (inflight ids due : List Int) : List Event :=
  immPhase db inflight ids ++ due.map Event.execSched

/-- Number of dispatches (immediate or scheduled) of a given id in a trace. -/
def dispatchCount (id : Int) (evs : List Event) : Nat :=
  (evs.filter fun e =>
    match e with
    | .execImm j => j == id
    | .execSched j => j == id
    | _ => false).length

/-- Number of "already inflight" skips in a trace. -/
def inflightSkips (evs : List Event) : Nat :=
  (evs.filter fun e =>
    match e with
    | .skipInflight _ => true
    | _ => false).length

structure DbConfig where
  host : String
  port : Int
  user : String
  password : String
  database : String
  pool_size : Int
  connect_timeout : Int
  charset : String
deriving DecidableEq, Repr

structure SchedulerConfig where
  poll_interval_sec : Int
  batch : Int
  mysql_session_time_zone : String
  default_timezone : String
  log_file : String
  control_enabled : Bool
  control_host : String
  control_port : Int
  control_token : String
deriving DecidableEq, Repr

structure MqttConfig where
  host : String
  port : Int
  username : String
  password : String
  client_id_prefix : String
  keepalive : Int
  tls : Bool
deriving DecidableEq, Repr

structure HttpConfig where
  user_agent : String
  verify_tls : Bool
deriving DecidableEq, Repr

structure Config where
  db : DbConfig
  scheduler : SchedulerConfig
  mqtt : MqttConfig
  http : HttpConfig
deriving DecidableEq, Repr

/-- `DEFAULT_CONFIG` (scheduler.py:38-48), field for field. -/
def DEFAULT_CONFIG : Config :=
  { db :=
    { host := "127.0.0.1", port := 3306, user := "jj", password := "jamesjian"
      database := "smartcare", pool_size := 5, connect_timeout := 10, charset := "utf8mb4" }
    scheduler :=
    { poll_interval_sec := 2, batch := 20, mysql_session_time_zone := "+08:00"
      default_timezone := "Asia/Taipei", log_file := "", control_enabled := true
      control_host := "127.0.0.1", control_port := 5055, control_token := "CHANGE_ME" }
    mqtt :=
    { host := "broker.emqx.io", port := 1883, username := "", password := ""
      client_id_prefix := "sched-", keepalive := 30, tls := false }
    http := { user_agent := "JJ-Scheduler/3.0", verify_tls := true } }

/-- `load_config` (scheduler.py:55-69) over an abstract filesystem: a missing
file writes `DEFAULT_CONFIG`, prints the warning and continues with it (the
`Bool` records that the default was written); a present complete document is
returned as-is (the per-key `setdefault` merge of partial documents is the
identity on complete ones and is not separately modelled). -/
def load_config (file : Option Config) : Config × Bool :=
  match file with
  | none => (DEFAULT_CONFIG, true)
  | some cfg => (cfg, false)

/-- Concrete zone database for the closed instances: only `Asia/Taipei`
(+08:00, a fixed-offset zone) resolves. -/
def zdb0 : String → Option Int := fun n => if n = "Asia/Taipei" then some 28800 else none

/-- A due, enabled row with every schedule field NULL; the concrete
instances are record updates of it. -/
def baseRow : JobRow :=
  { id := 1, name := none, enabled := true, schedule_type := none, run_at := none
    times_of_day := none, time_of_day := none, days_of_week := none, timezone := none
    channel := some "HTTP", payload := none, max_retries := none, retry_backoff_sec := none
    next_run_at := some (-5), last_run_at := none }

/-- DAILY 08:00 job whose `timezone` is non-empty but not a known zone. -/
def rowBadTz : JobRow :=
  { baseRow with
    schedule_type := some "DAILY", times_of_day := some "08:00", timezone := some "Nowhere/Bad" }

/-- The same DAILY 08:00 job with `timezone` spelled as the engine default. -/
def rowDefTz : JobRow :=
  { baseRow with
    schedule_type := some "DAILY", times_of_day := some "08:00", timezone := some "Asia/Taipei" }

/-- DAILY 08:00 job with NULL `timezone`. -/
def rowDaily : JobRow :=
  { baseRow with schedule_type := some "DAILY", times_of_day := some "08:00" }

/-- DAILY job whose `times_of_day` value does not parse (int("ab") raises). -/
def rowBadTimes : JobRow :=
  { baseRow with schedule_type := some "DAILY", times_of_day := some "ab:cd" }

/-- ONCE job with a valid future `run_at` but garbage in `times_of_day`
(a field the ONCE branch never uses — yet `_parse_times` runs first). -/
def rowOnceBadTimes : JobRow :=
  { baseRow with
    schedule_type := some "ONCE", run_at := some (some 100), times_of_day := some "ab:cd" }

/-- ONCE job with a valid future `run_at` and clean times fields. -/
def rowOnce : JobRow :=
  { baseRow with schedule_type := some "ONCE", run_at := some (some 100) }

/-- Recurring DAILY job with both times fields empty (spec scenario 6). -/
def rowEmptyTimes : JobRow :=
  { baseRow with schedule_type := some "DAILY" }

/-- Unknown `schedule_type` together with an unparseable times value. -/
def rowCron : JobRow :=
  { baseRow with schedule_type := some "CRON", times_of_day := some "xx" }

/-- Unknown `schedule_type` with clean (empty) times fields. -/
def rowCronClean : JobRow :=
  { baseRow with schedule_type := some "CRON" }

/-- DAILY 08:00 job with `max_retries = 2`, `retry_backoff_sec = 30`
(spec scenario 4). -/
def rowRetry : JobRow :=
  { baseRow with
    schedule_type := some "DAILY", times_of_day := some "08:00"
    max_retries := some 2, retry_backoff_sec := some 30 }

lemma firstCandGT_lt {times : List TimeOfDay} {daySec nowW c : Int}
    (h : firstCandGT times daySec nowW = some c) : nowW < c := by
  induction times with
  | nil => simp [firstCandGT] at h
  | cons t ts ih =>
    by_cases hc : nowW < daySec + secOfDay t
    · rw [firstCandGT, if_pos hc] at h
      cases h
      exact hc
    · rw [firstCandGT, if_neg hc] at h
      exact ih h

lemma dailyScan_lt {times : List TimeOfDay} {nowW baseDay c : Int} {offs : List Nat}
    (h : dailyScan times nowW baseDay offs = some c) : nowW < c := by
  induction offs with
  | nil => simp [dailyScan] at h
  | cons o os ih =>
    rw [dailyScan] at h
    cases hf : firstCandGT times ((baseDay + (o : Int)) * 86400) nowW with
    | none => rw [hf] at h; exact ih h
    | some v => rw [hf] at h; cases h; exact firstCandGT_lt hf

lemma minCandGT_lt {times : List TimeOfDay} {daySec nowW : Int} :
    ∀ {b : Int}, minCandGT times daySec nowW = some b → nowW < b := by
  induction times with
  | nil => intro b h; simp [minCandGT] at h
  | cons t ts ih =>
    intro b h
    rw [minCandGT] at h
    by_cases hc : nowW < daySec + secOfDay t
    · rw [if_pos hc] at h
      cases hr : minCandGT ts daySec nowW with
      | none => rw [hr] at h; cases h; exact hc
      | some b2 =>
        rw [hr] at h
        cases h
        exact lt_min hc (ih hr)
    · rw [if_neg hc] at h
      exact ih h

lemma weeklyScan_lt {times : List TimeOfDay} {dows : List Int} {nowW baseDay b : Int}
    {l : List Nat} (h : weeklyScan times dows nowW baseDay l = some b) : nowW < b := by
  induction l with
  | nil => simp [weeklyScan] at h
  | cons i is ih =>
    rw [weeklyScan] at h
    by_cases hw : pyWeekday (baseDay + (i : Int)) ∈ dows
    · rw [if_pos hw] at h
      cases hm : minCandGT times ((baseDay + (i : Int)) * 86400) nowW with
      | none => rw [hm] at h; exact ih h
      | some v => rw [hm] at h; cases h; exact minCandGT_lt hm
    · rw [if_neg hw] at h
      exact ih h

lemma retToJobWall_convertRet (jobOff sessOff : Option Int) (c : Int) :
    retToJobWall jobOff sessOff (convertRet jobOff sessOff c) = c := by
  cases jobOff <;> cases sessOff <;> simp [convertRet, retToJobWall]

lemma compute_eq_ok {zdb : String → Option Int} {nowUTC ambientOff : Int}
    {job : JobRow} {default_tz : String} {times : List TimeOfDay}
    (hp : _parse_times job = .ok times) :
    compute_next_run_at zdb nowUTC ambientOff job default_tz =
      .ok (resolveCore (zdb (jobTzName job default_tz)) (zdb default_tz)
        (nowWallOf zdb nowUTC ambientOff job default_tz) (stypeOf job)
        job.run_at times (_parse_days job.days_of_week)) := by
  unfold compute_next_run_at
  rw [hp]

lemma compute_eq_error {zdb : String → Option Int} {nowUTC ambientOff : Int}
    {job : JobRow} {default_tz : String} {e : Unit}
    (hp : _parse_times job = .error e) :
    compute_next_run_at zdb nowUTC ambientOff job default_tz = .error e := by
  unfold compute_next_run_at
  rw [hp]

lemma resolveCore_lt {jobOff sessOff : Option Int} {nowW : Int} {stype : String}
    {run_at : Option (Option Int)} {times : List TimeOfDay} {dows : List Int} {t : Int}
    (h : resolveCore jobOff sessOff nowW stype run_at times dows = some t) :
    nowW < retToJobWall jobOff sessOff t := by
  unfold resolveCore at h
  split at h
  · -- ONCE branch
    split at h
    · -- run_at = some (some run)
      split at h
      · -- job zone resolves
        split at h
        · exact Option.noConfusion h
        · rename_i hle
          injection h with ht
          subst ht
          rw [retToJobWall_convertRet]
          omega
      · -- naive comparison
        split at h
        · rename_i hlt
          injection h with ht
          subst ht
          cases sessOff <;> simpa [retToJobWall] using hlt
        · exact Option.noConfusion h
    · exact Option.noConfusion h
  · split at h
    · exact Option.noConfusion h
    · split at h
      · -- DAILY branch
        obtain ⟨c, hc, hconv⟩ := Option.map_eq_some'.mp h
        rw [← hconv, retToJobWall_convertRet]
        exact dailyScan_lt hc
      · split at h
        · -- WEEKLY branch
          split at h
          · exact Option.noConfusion h
          · obtain ⟨c, hc, hconv⟩ := Option.map_eq_some'.mp h
            rw [← hconv, retToJobWall_convertRet]
            exact weeklyScan_lt hc
        · exact Option.noConfusion h

/-- Claim C6 (confirmed): whenever the Resolver yields an instant `t`, that
instant, carried back to the job zone's wall clock, is strictly greater
than the `now` wall clock the Resolver computed with — the strict `>` holds
in every branch (ONCE, DAILY, WEEKLY), so the Resolver never returns the
current instant. -/
theorem compute_next_run_at_strictly_future (zdb : String → Option Int)
    (nowUTC ambientOff : Int) (job : JobRow) (default_tz : String) (t : Int)
    (h : compute_next_run_at zdb nowUTC ambientOff job default_tz = .ok (some t)) :
    nowWallOf zdb nowUTC ambientOff job default_tz <
      retToJobWall (zdb (jobTzName job default_tz)) (zdb default_tz) t := by
  cases hp : _parse_times job with
  | error e => rw [compute_eq_error (e := e) hp] at h; exact Except.noConfusion h
  | ok times =>
    rw [compute_eq_ok hp] at h
    injection h with h2
    exact resolveCore_lt h2

/-- Witness for C6 at a concrete input: the DAILY 08:00 Taipei job evaluated
at midnight UTC yields 2 Jan 1970 08:00 Taipei wall clock (115200 s). -/
theorem compute_next_run_at_strictly_future_witness :
    compute_next_run_at zdb0 0 0 rowDefTz "Asia/Taipei" = .ok (some 115200) ∧
    nowWallOf zdb0 0 0 rowDefTz "Asia/Taipei" <
      retToJobWall (zdb0 (jobTzName rowDefTz "Asia/Taipei")) (zdb0 "Asia/Taipei") 115200 :=
  ⟨by decide, compute_next_run_at_strictly_future zdb0 0 0 rowDefTz "Asia/Taipei" 115200 (by decide)⟩

/-- Claim C1 (corrected), counterexample: the Resolver's result depends on
the ambient local zone.  `rowBadTz` has a non-empty `timezone` that does not
resolve, so `datetime.now()` (naive, ambient zone) is used; at the same
absolute instant `nowUTC = 0` and the same default zone, an ambient offset
of 0 yields 08:00 of day 0 while an ambient offset of 30000 s yields 08:00
of day 1 — two different results for the same `(row, now, default-TZ)`. -/
theorem compute_next_run_at_ambient_dependent :
    compute_next_run_at zdb0 0 0 rowBadTz "Asia/Taipei" = .ok (some 28800) ∧
    compute_next_run_at zdb0 0 30000 rowBadTz "Asia/Taipei" = .ok (some 115200) ∧
    compute_next_run_at zdb0 0 0 rowBadTz "Asia/Taipei" ≠
      compute_next_run_at zdb0 0 30000 rowBadTz "Asia/Taipei" := by decide

/-- Claim C1 (as amended): the Resolver is a deterministic function of
`(row, now instant, default-TZ name, ambient local zone)`; it reads the
ambient clock for `now`, and whenever the job's zone name resolves in the
zone database the result is moreover independent of the ambient zone. -/
theorem compute_next_run_at_deterministic (zdb : String → Option Int)
    (nowUTC : Int) (job : JobRow) (default_tz : String)
    (h : (zdb (jobTzName job default_tz)).isSome = true) (a1 a2 : Int) :
    compute_next_run_at zdb nowUTC a1 job default_tz =
      compute_next_run_at zdb nowUTC a2 job default_tz := by
  obtain ⟨o, ho⟩ := Option.isSome_iff_exists.mp h
  cases hp : _parse_times job with
  | error e => rw [compute_eq_error (e := e) hp, compute_eq_error (e := e) hp]
  | ok times =>
    rw [compute_eq_ok hp, compute_eq_ok hp]
    have hnw : nowWallOf zdb nowUTC a1 job default_tz =
        nowWallOf zdb nowUTC a2 job default_tz := by
      unfold nowWallOf
      rw [ho]
    rw [hnw]

/-- Witness for C1's amended theorem at a resolvable zone. -/
theorem compute_next_run_at_deterministic_witness :
    (zdb0 (jobTzName rowDefTz "Asia/Taipei")).isSome = true ∧
    compute_next_run_at zdb0 0 111 rowDefTz "Asia/Taipei" =
      compute_next_run_at zdb0 0 222 rowDefTz "Asia/Taipei" :=
  ⟨by decide,
   compute_next_run_at_deterministic zdb0 0 rowDefTz "Asia/Taipei" (by decide) 111 222⟩

lemma compute_congr (zdb : String → Option Int) (nowUTC ambientOff : Int)
    (j1 j2 : JobRow) (default_tz : String)
    (h1 : jobTzName j1 default_tz = jobTzName j2 default_tz)
    (h2 : _parse_times j1 = _parse_times j2)
    (h3 : stypeOf j1 = stypeOf j2)
    (h4 : j1.run_at = j2.run_at)
    (h5 : j1.days_of_week = j2.days_of_week) :
    compute_next_run_at zdb nowUTC ambientOff j1 default_tz =
      compute_next_run_at zdb nowUTC ambientOff j2 default_tz := by
  cases hp : _parse_times j2 with
  | error e => rw [compute_eq_error (e := e) (h2.trans hp), compute_eq_error (e := e) hp]
  | ok times =>
    rw [compute_eq_ok (h2.trans hp), compute_eq_ok hp]
    unfold nowWallOf
    rw [h1, h3, h4, h5]

/-- Claim C7 (corrected), counterexample: an unparseable non-empty
`timezone` does NOT fall back to the engine default zone.  `rowBadTz` and
`rowDefTz` differ only in that field; at `nowUTC = 0`, ambient offset 0,
the unparseable one computes with the naive ambient clock (first 08:00
candidate = 28800) while the default-zone job computes in Asia/Taipei
(candidate = 115200).  Had the default zone been used, both would agree. -/
theorem compute_next_run_at_bad_tz_not_default :
    rowBadTz = { rowDefTz with timezone := some "Nowhere/Bad" } ∧
    zdb0 "Nowhere/Bad" = none ∧
    compute_next_run_at zdb0 0 0 rowBadTz "Asia/Taipei" = .ok (some 28800) ∧
    compute_next_run_at zdb0 0 0 rowDefTz "Asia/Taipei" = .ok (some 115200) := by decide

/-- Claim C7 (as amended): only an *empty* (NULL or `""`) `timezone` falls
back to the engine default — such a row resolves exactly as if the default
zone name were written in the field.  A non-empty but unparseable name
instead makes `_get_zoneinfo` return `None`, and the Resolver then works in
naive ambient local time with no zone conversion. -/
theorem compute_next_run_at_empty_tz_default (zdb : String → Option Int)
    (nowUTC ambientOff : Int) (job : JobRow) (default_tz : String)
    (h : job.timezone = none ∨ job.timezone = some "") :
    compute_next_run_at zdb nowUTC ambientOff job default_tz =
      compute_next_run_at zdb nowUTC ambientOff
        { job with timezone := some default_tz } default_tz := by
  apply compute_congr
  · rcases h with h | h <;> simp [jobTzName, h]
  · rfl
  · rfl
  · rfl
  · rfl

/-- Witness for C7's amended theorem: NULL timezone behaves as the default
zone name written out. -/
theorem compute_next_run_at_empty_tz_default_witness :
    (rowDaily.timezone = none ∨ rowDaily.timezone = some "") ∧
    compute_next_run_at zdb0 0 0 rowDaily "Asia/Taipei" =
      compute_next_run_at zdb0 0 0
        { rowDaily with timezone := some "Asia/Taipei" } "Asia/Taipei" :=
  ⟨Or.inl rfl,
   compute_next_run_at_empty_tz_default zdb0 0 0 rowDaily "Asia/Taipei" (Or.inl rfl)⟩

/-- Claim C2 (corrected), counterexample: a DAILY job with the unparseable
`times_of_day = "ab:cd"` makes the Resolver RAISE (the engine's per-cycle
handler catches it and the row is never updated): the job stays enabled and
due, so the next poll fetches and dispatches it again — it is not paused. -/
theorem malformed_times_not_paused :
    compute_next_run_at zdb0 0 0 rowBadTimes "Asia/Taipei" = .error () ∧
    afterSuccessDispatch zdb0 0 0 0 rowBadTimes "Asia/Taipei" = rowBadTimes ∧
    rowBadTimes.enabled = true ∧
    rowBadTimes.next_run_at = some (-5) := by decide

/-- Claim C2 (as amended): for a recurring (DAILY or WEEKLY) job whose
schedule fields are malformed *without raising* — the parsed times list is
empty, or a WEEKLY job has no recognised weekday — the Resolver yields none
and one successful dispatch pauses the job (`enabled=false`, `next_run_at`
untouched, no sentinel written), so later polls do not fetch it.
Unparseable `times_of_day`/`time_of_day` values instead raise a data error
and leave the row unchanged and still due. -/
theorem recurring_empty_schedule_pauses (zdb : String → Option Int)
    (nowUTC ambientOff sqlNow : Int) (job : JobRow) (default_tz : String)
    (ts : List TimeOfDay)
    (hty : stypeOf job = "DAILY" ∨ stypeOf job = "WEEKLY")
    (hts : _parse_times job = .ok ts)
    (hmal : ts = [] ∨ (stypeOf job = "WEEKLY" ∧ _parse_days job.days_of_week = [])) :
    compute_next_run_at zdb nowUTC ambientOff job default_tz = .ok none ∧
    afterSuccessDispatch zdb nowUTC ambientOff sqlNow job default_tz =
      { job with enabled := false, last_run_at := some sqlNow } := by
  have hnone : compute_next_run_at zdb nowUTC ambientOff job default_tz = .ok none := by
    rw [compute_eq_ok hts]
    congr 1
    rcases hty with hty | hty
    · rcases hmal with hmal | ⟨hw, _⟩
      · subst hmal
        simp [resolveCore, hty]
      · rw [hty] at hw
        exact absurd hw (by decide)
    · rcases hmal with hmal | ⟨_, hd⟩
      · subst hmal
        simp [resolveCore, hty]
      · simp [resolveCore, hty, hd]
  refine ⟨hnone, ?_⟩
  have hdis : (stypeOf job == "ONCE") = false := by
    rcases hty with hty | hty <;> rw [hty] <;> decide
  unfold afterSuccessDispatch
  rw [hnone]
  simp [hdis, update_job_after_success]

/-- Witness for C2's amended theorem: DAILY with both times fields NULL
(spec scenario 6) resolves to none and is paused after one dispatch. -/
theorem recurring_empty_schedule_pauses_witness :
    (stypeOf rowEmptyTimes = "DAILY" ∨ stypeOf rowEmptyTimes = "WEEKLY") ∧
    _parse_times rowEmptyTimes = .ok [] ∧
    compute_next_run_at zdb0 0 0 rowEmptyTimes "Asia/Taipei" = .ok none ∧
    afterSuccessDispatch zdb0 0 0 7 rowEmptyTimes "Asia/Taipei" =
      { rowEmptyTimes with enabled := false, last_run_at := some 7 } := by
  have h := recurring_empty_schedule_pauses zdb0 0 0 7 rowEmptyTimes "Asia/Taipei" []
    (Or.inl (by decide)) (by decide) (Or.inl rfl)
  exact ⟨Or.inl (by decide), by decide, h.1, h.2⟩

/-- Claim C8 (corrected), counterexample: a successfully dispatched ONCE
job is NOT disabled when its (unused) `times_of_day` holds an unparseable
value — `_parse_times` runs before the ONCE branch and raises, the
exception skips `update_job_after_success`, and the row stays enabled. -/
theorem once_success_not_disabled_on_bad_times :
    stypeOf rowOnceBadTimes = "ONCE" ∧
    compute_next_run_at zdb0 0 0 rowOnceBadTimes "Asia/Taipei" = .error () ∧
    afterSuccessDispatch zdb0 0 0 0 rowOnceBadTimes "Asia/Taipei" = rowOnceBadTimes ∧
    rowOnceBadTimes.enabled = true := by decide

/-- Claim C8 (as amended): after every successful dispatch of a ONCE job
whose times fields parse without raising, the row is updated to
`enabled=false` with `last_run_at = now`, and `next_run_at` and every other
field are left unchanged (the update touches exactly those two columns). -/
theorem once_success_disables (zdb : String → Option Int)
    (nowUTC ambientOff sqlNow : Int) (job : JobRow) (default_tz : String)
    (ts : List TimeOfDay)
    (hty : stypeOf job = "ONCE") (hts : _parse_times job = .ok ts) :
    afterSuccessDispatch zdb nowUTC ambientOff sqlNow job default_tz =
      { job with enabled := false, last_run_at := some sqlNow } := by
  have hdis : (stypeOf job == "ONCE") = true := by rw [hty]; decide
  unfold afterSuccessDispatch
  rw [compute_eq_ok hts]
  simp [hdis, update_job_after_success]

/-- Witness for C8's amended theorem at a clean ONCE row. -/
theorem once_success_disables_witness :
    stypeOf rowOnce = "ONCE" ∧
    _parse_times rowOnce = .ok [] ∧
    afterSuccessDispatch zdb0 0 0 9 rowOnce "Asia/Taipei" =
      { rowOnce with enabled := false, last_run_at := some 9 } :=
  ⟨by decide, by decide,
   once_success_disables zdb0 0 0 9 rowOnce "Asia/Taipei" [] (by decide) (by decide)⟩

/-- Claim C10 (corrected), counterexample: a job with the unknown
`schedule_type = "CRON"` does not always "return none without raising" —
with an unparseable `times_of_day` the Resolver raises, because
`_parse_times` runs before the type dispatch. -/
theorem unknown_stype_raises_on_bad_times :
    stypeOf rowCron = "CRON" ∧
    compute_next_run_at zdb0 0 0 rowCron "Asia/Taipei" = .error () := by decide

/-- Claim C10 (as amended): for every row whose trimmed, upper-cased
`schedule_type` is none of ONCE/DAILY/WEEKLY (including empty and NULL) and
whose times fields parse without raising, the Resolver returns none, and a
dispatch then pauses the job (`enabled=false`, nothing else changed beyond
`last_run_at`). -/
theorem unknown_stype_none_and_pause (zdb : String → Option Int)
    (nowUTC ambientOff sqlNow : Int) (job : JobRow) (default_tz : String)
    (ts : List TimeOfDay)
    (h1 : stypeOf job ≠ "ONCE") (h2 : stypeOf job ≠ "DAILY")
    (h3 : stypeOf job ≠ "WEEKLY") (hts : _parse_times job = .ok ts) :
    compute_next_run_at zdb nowUTC ambientOff job default_tz = .ok none ∧
    afterSuccessDispatch zdb nowUTC ambientOff sqlNow job default_tz =
      { job with enabled := false, last_run_at := some sqlNow } := by
  have hnone : compute_next_run_at zdb nowUTC ambientOff job default_tz = .ok none := by
    rw [compute_eq_ok hts]
    congr 1
    unfold resolveCore
    rw [if_neg h1]
    by_cases h0 : ts.isEmpty
    · rw [if_pos h0]
    · rw [if_neg h0, if_neg h2, if_neg h3]
  refine ⟨hnone, ?_⟩
  have hdis : (stypeOf job == "ONCE") = false := by
    cases hb : stypeOf job == "ONCE"
    · rfl
    · exact absurd (eq_of_beq hb) h1
  unfold afterSuccessDispatch
  rw [hnone]
  simp [hdis, update_job_after_success]

/-- Witness for C10's amended theorem at a clean unknown-type row. -/
theorem unknown_stype_none_and_pause_witness :
    stypeOf rowCronClean = "CRON" ∧
    _parse_times rowCronClean = .ok [] ∧
    compute_next_run_at zdb0 0 0 rowCronClean "Asia/Taipei" = .ok none ∧
    afterSuccessDispatch zdb0 0 0 3 rowCronClean "Asia/Taipei" =
      { rowCronClean with enabled := false, last_run_at := some 3 } := by
  have h := unknown_stype_none_and_pause zdb0 0 0 3 rowCronClean "Asia/Taipei" []
    (by decide) (by decide) (by decide) (by decide)
  exact ⟨by decide, by decide, h.1, h.2⟩

lemma handleJobId_ne_forbidden (query : List (String × String)) :
    handleJobId query ≠ .forbidden := by
  unfold handleJobId
  cases qsGet query "job_id" with
  | none => simp
  | some s => cases hp : parseIntStr s <;> simp [hp]

/-- Claim C3 (corrected), counterexample: with `control_token = "secret"`,
a request carrying the wrong `token` query parameter together with a
CORRECT `X-Token` header is refused with 403 — the header is never
consulted once a non-empty query token is present — while the same request
without the query parameter is processed normally. -/
theorem auth_header_ignored_when_query_token_present :
    do_GET "secret" "/run_immediate" [("token", "wrong"), ("job_id", "1")]
      (some "secret") = .forbidden ∧
    do_GET "secret" "/run_immediate" [("job_id", "1")] (some "secret") = .queued 1 := by
  decide

/-- Claim C3 (as amended): when a non-empty token is configured, the
effective credential is the `token` query parameter if present and
non-blank, else the `X-Token` header; a `/run_immediate` request is
refused with 403 exactly when that effective credential differs from the
configured token (the header can only grant access when the query
parameter is absent or blank). -/
theorem auth_gate_effective_token (tok : String) (query : List (String × String))
    (xTok : Option String) (h : tok ≠ "") :
    (do_GET tok "/run_immediate" query xTok = .forbidden ↔
      effectiveToken query xTok ≠ some tok) := by
  unfold do_GET
  rw [if_neg (by simp), if_neg (by decide)]
  by_cases he : effectiveToken query xTok = some tok
  · rw [if_neg (by simp [he])]
    simp [handleJobId_ne_forbidden query, he]
  · rw [if_pos ⟨h, he⟩]
    simp [he]

/-- Witness for C3's amended theorem: a header-only correct credential
yields normal processing (not 403). -/
theorem auth_gate_effective_token_witness :
    ("secret" : String) ≠ "" ∧
    (do_GET "secret" "/run_immediate" [("job_id", "7")] (some "secret") = .forbidden ↔
      effectiveToken [("job_id", "7")] (some "secret") ≠ some "secret") :=
  ⟨by decide,
   auth_gate_effective_token "secret" [("job_id", "7")] (some "secret") (by decide)⟩

lemma immPhase_empty_inflight (db : Int → Bool) (ids : List Int) :
    immPhase db [] ids =
      ids.map fun j => if db j then Event.execImm j else Event.notFoundImm j := by
  induction ids with
  | nil => rfl
  | cons j rest ih =>
    by_cases hj : db j <;> simp [immPhase, hj, ih, List.erase_cons_head]

/-- Claim C4 (corrected), counterexample: id 42 is drained twice from the
immediate queue while also sitting in the fetched due batch.  The trace of
that single cycle contains THREE dispatches of 42 (two immediate, one
scheduled) and zero "already inflight" skips: the in-flight interlock
neither deduplicates queued requests (each execution removes the id before
the next is examined) nor shields the scheduled phase (which never consults
the set). -/
theorem immediate_duplicates_all_execute :
    cycleEvents (fun _ => true) [] [42, 42] [42] =
      [Event.execImm 42, Event.execImm 42, Event.execSched 42] ∧
    dispatchCount 42 (cycleEvents (fun _ => true) [] [42, 42] [42]) = 3 ∧
    inflightSkips (cycleEvents (fun _ => true) [] [42, 42] [42]) = 0 := by decide

/-- Claim C4 (as amended): within one poll cycle the immediate phase runs
first and sequentially; starting from an empty in-flight set, every drained
id that exists in the store is executed (no "already inflight" skip can
occur, because each execution removes its id before the next entry is
examined), and afterwards every job of the due batch is executed
unconditionally — so an id both queued and due is dispatched twice. -/
theorem cycle_trace_characterisation (db : Int → Bool) (ids due : List Int) :
    cycleEvents db [] ids due =
      (ids.map fun j => if db j then Event.execImm j else Event.notFoundImm j) ++
        due.map Event.execSched := by
  unfold cycleEvents
  rw [immPhase_empty_inflight]

lemma afterFailureDispatch_retry (zdb : String → Option Int)
    (nowUTC ambientOff pyNow sqlNow : Int) (row : JobRow) (default_tz : String)
    (h : 0 < effMaxRetries row) :
    afterFailureDispatch zdb nowUTC ambientOff pyNow sqlNow row default_tz =
      { row with next_run_at := some (pyNow + effBackoff row)
                 last_run_at := some sqlNow } := by
  unfold afterFailureDispatch update_job_after_failure
  rw [if_pos h]

/-- Claim C5 (corrected), counterexample: `rowRetry` has `max_retries = 2`,
`retry_backoff_sec = 30`, and a live DAILY schedule whose resolver value is
115200.  After FIVE consecutive failed dispatches the row still carries the
retry timestamp `now + 30` — not the recurrence instant: the code keeps no
retry count, so "exhaustion of max_retries" never happens and recurrence
does not resume while failures persist. -/
theorem retries_never_exhaust :
    effMaxRetries rowRetry = 2 ∧
    failNTimes zdb0 0 0 0 0 rowRetry "Asia/Taipei" 5 =
      { rowRetry with next_run_at := some 30, last_run_at := some 0 } ∧
    (failNTimes zdb0 0 0 0 0 rowRetry "Asia/Taipei" 5).enabled = true ∧
    compute_next_run_at zdb0 0 0 rowRetry "Asia/Taipei" = .ok (some 115200) ∧
    (failNTimes zdb0 0 0 0 0 rowRetry "Asia/Taipei" 5).next_run_at ≠ some 115200 := by
  decide

/-- Claim C5 (as amended): every failed dispatch of a job with
`max_retries > 0` updates the store to `next_run_at = now + retry_backoff_sec`
(with 60 substituted when the field is NULL or 0) and `last_run_at = now`,
leaving `enabled` and every other field unchanged; and because no retry
count is kept, the same retry update recurs after every number of
consecutive failures — recurrence resumes only after a success. -/
theorem failure_with_retries_schedules_backoff (zdb : String → Option Int)
    (nowUTC ambientOff pyNow sqlNow : Int) (row : JobRow) (default_tz : String)
    (h : 0 < effMaxRetries row) :
    afterFailureDispatch zdb nowUTC ambientOff pyNow sqlNow row default_tz =
      { row with next_run_at := some (pyNow + effBackoff row)
                 last_run_at := some sqlNow } ∧
    ∀ n : Nat, failNTimes zdb nowUTC ambientOff pyNow sqlNow row default_tz (n + 1) =
      { row with next_run_at := some (pyNow + effBackoff row)
                 last_run_at := some sqlNow } := by
  refine ⟨afterFailureDispatch_retry zdb nowUTC ambientOff pyNow sqlNow row default_tz h, ?_⟩
  intro n
  induction n with
  | zero =>
    rw [failNTimes, failNTimes]
    exact afterFailureDispatch_retry zdb nowUTC ambientOff pyNow sqlNow row default_tz h
  | succ k ih =>
    rw [failNTimes, ih]
    exact afterFailureDispatch_retry zdb nowUTC ambientOff pyNow sqlNow _ default_tz h

/-- Witness for C5's amended theorem at spec scenario 4's row. -/
theorem failure_with_retries_schedules_backoff_witness :
    0 < effMaxRetries rowRetry ∧
    afterFailureDispatch zdb0 0 0 0 0 rowRetry "Asia/Taipei" =
      { rowRetry with next_run_at := some 30, last_run_at := some 0 } ∧
    failNTimes zdb0 0 0 0 0 rowRetry "Asia/Taipei" 5 =
      { rowRetry with next_run_at := some 30, last_run_at := some 0 } := by
  have h := failure_with_retries_schedules_backoff zdb0 0 0 0 0 rowRetry "Asia/Taipei"
    (by decide)
  exact ⟨by decide, h.1, h.2 4⟩

/-- Claim C9 (corrected), counterexample: when the configuration file is
absent the engine does write a default and continue, but the written
default's `scheduler.control_token` is NOT the empty string. -/
theorem default_config_token_not_empty :
    (load_config none).2 = true ∧
    (load_config none).1.scheduler.control_token ≠ "" := by decide

/-- Claim C9 (as amended): when the configuration file is absent the engine
writes the default configuration, warns, and continues; in that written
default, `scheduler.control_token` is `"CHANGE_ME"` — token authorisation
is enabled by default with a placeholder value, not disabled. -/
theorem default_config_written_when_absent :
    load_config none = (DEFAULT_CONFIG, true) ∧
    DEFAULT_CONFIG.scheduler.control_token = "CHANGE_ME" :=
  ⟨rfl, rfl⟩
